import Mathlib

/-!
Verification of the watched-folder ingestion and rename-suggestion pipeline
of the `nodeo` repository (src/app/workers/file_processor.py,
src/app/workers/rename_executor.py, src/app/services/folder_watcher.py,
src/app/routers/suggestions.py), as a shallow embedding.

Machine conventions:
* file contents are abstracted to `Nat` tokens; the filesystem is a map
  from paths to optional contents;
* Python floats are modelled as `ℚ` (the confidence arithmetic only adds,
  divides and takes `min` of small constants);
* the relational store is modelled as lists of rows with integer ids;
* external collaborators (the vision model `llava_client.extract_metadata`
  and the `RenameEngine` template expander, both out of scope per the spec)
  enter as parameters of the pipeline functions.
-/

namespace Nodeo

/-! ## Paths (Python `pathlib` fragment used by the pipeline) -/

/-- A filesystem path, split as the code uses it: `dir` models
`Path.parent` (as a string) and `name` models `Path.name`.  The pipeline
only ever builds sibling paths via `old_path.parent / new_filename`. -/
structure FsPath where
  dir : String
  name : String
  deriving DecidableEq, Repr

/-- Python `str.startswith`, via char lists (structurally recursive so
that concrete instances evaluate). -/
def pyStartsWith (s pre : String) : Bool := pre.toList.isPrefixOf s.toList

/-- Python `str.endswith`, via char lists. -/
def pyEndsWith (s suf : String) : Bool := suf.toList.isSuffixOf s.toList

/-- ASCII lowercasing of one character (the extensions the pipeline
compares are ASCII). -/
def pyLowerChar (c : Char) : Char :=
  if 'A' ≤ c ∧ c ≤ 'Z' then Char.ofNat (c.toNat + 32) else c

/-- Python `str.lower`, restricted to ASCII case mapping. -/
def pyLower (s : String) : String := String.mk (s.toList.map pyLowerChar)

/-- Index of the last occurrence of a character in a list, if any. -/
def lastIdxOf (c : Char) : List Char → Option Nat
  | [] => none
  | a :: as =>
    match lastIdxOf c as with
    | some i => some (i + 1)
    | none => if a = c then some 0 else none

/-- Python `pathlib.PurePath.suffix`: the final extension of `name`
including the leading dot, empty when the last dot is at position 0
(hidden files) or at the very end, or when there is no dot. -/
def nameSuffix (name : String) : String :=
  let l := name.toList
  match lastIdxOf '.' l with
  | some i => if 0 < i ∧ i < l.length - 1 then String.mk (l.drop i) else ""
  | none => ""

/-- Python `path.suffix.lower().lstrip('.')` as used by the pipeline to
turn a filename into a bare lowercase extension. -/
def extOf (name : String) : String :=
  String.mk ((pyLower (nameSuffix name)).toList.dropWhile (fun c => c = '.'))

/-! ## Configuration (src/app/config.py) -/

/-- Allowed image extensions, from `Settings.allowed_image_extensions`. -/
def allowed_image_exts : List String :=
  ["jpg", "jpeg", "png", "gif", "webp", "bmp", "tiff"]

/-- Allowed video extensions, from `Settings.allowed_video_extensions`. -/
def allowed_video_exts : List String :=
  ["mp4", "mov", "avi", "mkv", "webm"]

/-! ## Folder watcher (src/app/services/folder_watcher.py) -/

/-- The event handler's media-file test `FolderEventHandler._is_valid_file`:
the extension must be in the allowed set and the file name must not start
with a dot. -/
def is_valid_file (p : FsPath) : Bool :=
  (allowed_image_exts ++ allowed_video_exts).contains (extOf p.name)
    && !(pyStartsWith p.name ".")

/-- The directory enumeration of `WatcherManager.scan_folder`: keep the
files whose extension is allowed and whose name does not start with a
dot (the `rglob` loop; `is_file` entries are the input list). -/
def scan_files (entries : List FsPath) : List FsPath :=
  entries.filter (fun fp =>
    (allowed_image_exts ++ allowed_video_exts).contains (extOf fp.name)
      && !(pyStartsWith fp.name "."))

/-- The `file_count` written back by `scan_folder` (`len(files)`). -/
def scan_file_count (entries : List FsPath) : Nat :=
  (scan_files entries).length

/-! ## Python truthiness helpers -/

/-- Truthiness of an optional string (Python `if not x` on a nullable
string column): `None` and the empty string are falsy. -/
def pyTruthyStr : Option String → Bool
  | none => false
  | some s => !(s == "")

/-- Truthiness of an optional list (Python `if x` on a nullable JSON list
column): `None` and the empty list are falsy. -/
def pyTruthyList : Option (List String) → Bool
  | none => false
  | some [] => false
  | some (_ :: _) => true

/-- Length of an optional string, zero for `None`. -/
def descLen : Option String → Nat
  | none => 0
  | some s => s.length

/-- Length of an optional list, zero for `None`. -/
def tagsLen : Option (List String) → Nat
  | none => 0
  | some l => l.length

/-! ## Data model rows (migration 20251113_add_jspow_v2_tables.py) -/

/-- Status of a rename suggestion, from the `suggestionstatus` enum of the
migration (the `SuggestionStatus` class of `app.models` is not in the
source snapshot; values follow the migration). -/
inductive SuggestionStatus
  | pending | approved | rejected | applied | failed
  deriving DecidableEq, Repr

/-- Python `.value` string of a `SuggestionStatus` member, used in the
executor's error message. -/
def suggestionStatusValue : SuggestionStatus → String
  | .pending => "pending"
  | .approved => "approved"
  | .rejected => "rejected"
  | .applied => "applied"
  | .failed => "failed"

/-- Action type of an activity-log entry, from the `activityactiontype`
enum of the migration. -/
inductive ActivityAction
  | rename | approve | reject | scan | error | folderAdded | folderRemoved
  deriving DecidableEq, Repr

/-- An `images` row (the `Image` model of src/app/models.py), restricted
to the columns the pipeline reads or writes. -/
structure Image where
  id : Nat
  original_filename : String
  current_filename : String
  file_path : FsPath
  ai_description : Option String
  ai_tags : Option (List String)
  ai_scene : Option String
  analyzed : Bool
  deriving DecidableEq, Repr

/-- A `rename_suggestions` row, per the migration columns. -/
structure RenameSuggestion where
  id : Nat
  watched_folder_id : Option Nat
  asset_id : Option Nat
  original_path : FsPath
  original_filename : String
  suggested_filename : String
  confidence_score : ℚ
  status : SuggestionStatus
  deriving DecidableEq, Repr

/-- A `watched_folders` row, restricted to the counters the pipeline
updates. -/
structure WatchedFolder where
  id : Nat
  file_count : Int
  analyzed_count : Int
  pending_count : Int
  deriving DecidableEq, Repr

/-- An `activity_log` row.  `is_rollback` models the `rollback: true`
entry of the JSON `metadata` column written by `rollback_rename`. -/
structure ActivityLog where
  id : Nat
  watched_folder_id : Option Nat
  asset_id : Option Nat
  action_type : ActivityAction
  original_filename : Option String
  new_filename : Option String
  status : String
  error_message : Option String
  is_rollback : Bool
  deriving DecidableEq, Repr

/-- The relational store: one list per table, plus id counters modelling
primary-key generation (`uuid4` freshness for storage asset ids is
modelled by the `nextAssetUuid` counter). -/
structure Db where
  images : List Image
  suggestions : List RenameSuggestion
  folders : List WatchedFolder
  activity : List ActivityLog
  nextImageId : Nat
  nextSuggestionId : Nat
  nextActivityId : Nat
  nextAssetUuid : Nat
  deriving DecidableEq, Repr

/-- The filesystem: a map from paths to optional abstract contents. -/
def FileSystem : Type := FsPath → Option Nat

/-- Combined system state: store plus filesystem. -/
structure SysState where
  db : Db
  fs : FileSystem

/-- Write (or overwrite) a file. -/
def fsWrite (fs : FileSystem) (p : FsPath) (c : Nat) : FileSystem :=
  fun q => if q = p then some c else fs q

/-- Remove a file. -/
def fsErase (fs : FileSystem) (p : FsPath) : FileSystem :=
  fun q => if q = p then none else fs q

/-! ## Row lookup and update helpers -/

/-- Find a suggestion row by id. -/
def findSuggestion (db : Db) (sid : Nat) : Option RenameSuggestion :=
  db.suggestions.find? (fun s => decide (s.id = sid))

/-- Find an image row by id. -/
def findImage (db : Db) (iid : Nat) : Option Image :=
  db.images.find? (fun im => decide (im.id = iid))

/-- Find an image row by its `file_path` column (the duplicate-import
check of `process_file`). -/
def findImageByPath (db : Db) (p : FsPath) : Option Image :=
  db.images.find? (fun im => decide (im.file_path = p))

/-- Find a watched-folder row by id. -/
def findFolder (db : Db) (fid : Nat) : Option WatchedFolder :=
  db.folders.find? (fun f => decide (f.id = fid))

/-- Find an activity-log row by id. -/
def findActivity (db : Db) (lid : Nat) : Option ActivityLog :=
  db.activity.find? (fun a => decide (a.id = lid))

/-- Apply an update to the suggestion row with the given id. -/
def updateSuggestion (db : Db) (sid : Nat) (g : RenameSuggestion → RenameSuggestion) : Db :=
  { db with suggestions := db.suggestions.map (fun s => if s.id = sid then g s else s) }

/-- Apply an update to the image row with the given id. -/
def updateImage (db : Db) (iid : Nat) (g : Image → Image) : Db :=
  { db with images := db.images.map (fun im => if im.id = iid then g im else im) }

/-- Apply an update to the watched-folder row with the given id. -/
def updateFolder (db : Db) (fid : Nat) (g : WatchedFolder → WatchedFolder) : Db :=
  { db with folders := db.folders.map (fun f => if f.id = fid then g f else f) }

/-! ## Confidence (FileProcessor._calculate_confidence) -/

/-- Confidence score of a rename suggestion, translated line by line from
`FileProcessor._calculate_confidence` with Python floats as rationals:
0.5 for a truthy description plus a length bonus `min(0.1, len/1000)`
once the length exceeds 50; 0.3 for a nonempty tag list plus a count
bonus `min(0.1, count/50)` once the count exceeds 3; 0.2 for a truthy
scene; finally clamped by `min(1.0, ...)`. -/
def calculate_confidence (image : Image) : ℚ :=
  let confidence : ℚ := 0
  let confidence : ℚ :=
    if pyTruthyStr image.ai_description then
      confidence + 1/2 +
        (if 50 < descLen image.ai_description then
          min (1/10) ((descLen image.ai_description : ℚ) / 1000) else 0)
    else confidence
  let confidence : ℚ :=
    if pyTruthyList image.ai_tags && decide (0 < tagsLen image.ai_tags) then
      confidence + 3/10 +
        (if 3 < tagsLen image.ai_tags then
          min (1/10) ((tagsLen image.ai_tags : ℚ) / 50) else 0)
    else confidence
  let confidence : ℚ :=
    if pyTruthyStr image.ai_scene then confidence + 1/5 else confidence
  min 1 confidence

/-- Description contribution to the confidence, as a function of the
description length. -/
def descScore (n : Nat) : ℚ :=
  if n = 0 then 0
  else 1/2 + (if 50 < n then min (1/10) ((n : ℚ) / 1000) else 0)

/-- Tag contribution to the confidence, as a function of the tag count. -/
def tagScore (n : Nat) : ℚ :=
  if n = 0 then 0
  else 3/10 + (if 3 < n then min (1/10) ((n : ℚ) / 50) else 0)

/-- Scene contribution to the confidence. -/
def sceneScore (b : Bool) : ℚ := if b then 1/5 else 0

/-! ## Suggestion generation and file processing
(FileProcessor.process_file / _generate_suggestion) -/

/-- Result of one `llava_client.extract_metadata` call (the vision
collaborator, external per the spec); the caller passes `none` when the
call raised and processing continues without AI metadata. -/
structure AiAnalysis where
  description : Option String
  tags : List String
  scene : Option String
  deriving DecidableEq, Repr

/-- Storage layout path `StorageManager._resolve_asset_dir` for the
fixed default project and a fixed year: `type_dir / year / project /
asset_id / filename`.  The asset id is the `uuid4().hex` of
`process_file`, modelled by a fresh counter value. -/
def storagePath (kind : String) (assetUuid : Nat) (filename : String) : FsPath :=
  ⟨"/app/storage/" ++ kind ++ "/2025/general/" ++ Nat.repr assetUuid, filename⟩

/-- Outcome of `FileProcessor.process_file`: the returned bool, plus the
`suggestion_created` flag the code records in the scan activity entry's
metadata. -/
structure ProcessResult where
  success : Bool
  suggestion_created : Bool
  deriving DecidableEq, Repr

/-- Translation of `FileProcessor._generate_suggestion`.  The candidate
filename produced by the `RenameEngine` template expansion (external per
the spec) is the `engineName` parameter.

Threshold note, modelled from the spec: `Settings` in
src/app/config.py does not define `suggestion_confidence_threshold`; the
spec says a suggestion row is persisted "only when confidence ≥ a
configured threshold", so the threshold is a parameter here. -/
def generate_suggestion (db : Db) (folder_id : Nat) (image : Image)
    (original_path : FsPath) (engineName : String) (threshold : ℚ) :
    Db × Option RenameSuggestion :=
  if pyTruthyStr image.ai_description = false then (db, none)
  else
    let confidence := calculate_confidence image
    if confidence < threshold then (db, none)
    else
      let s : RenameSuggestion :=
        { id := db.nextSuggestionId
          watched_folder_id := some folder_id
          asset_id := some image.id
          original_path := original_path
          original_filename := image.original_filename
          suggested_filename := engineName
          confidence_score := confidence
          status := SuggestionStatus.pending }
      ({ db with suggestions := db.suggestions ++ [s],
                 nextSuggestionId := db.nextSuggestionId + 1 }, some s)

/-- Translation of `FileProcessor.process_file`: folder lookup, existence
check, duplicate check against `Image.file_path`, extension gate, write
of the originals copy, working copy and metadata sidecar, creation of
the `Image` row pointing at the working copy, optional AI enrichment,
suggestion generation, folder counters, and the scan activity entry. -/
def process_file (st : SysState) (folder_id : Nat) (p : FsPath)
    (ai : Option AiAnalysis) (engineName : String) (threshold : ℚ) :
    SysState × ProcessResult :=
  match findFolder st.db folder_id with
  | none => (st, ⟨false, false⟩)
  | some _ =>
  if (st.fs p).isNone then (st, ⟨false, false⟩)
  else if (findImageByPath st.db p).isSome then (st, ⟨true, false⟩)
  else
    let ext := extOf p.name
    let is_image := allowed_image_exts.contains ext
    let is_video := allowed_video_exts.contains ext
    if !(is_image || is_video) then (st, ⟨false, false⟩)
    else
      match st.fs p with
      | none => (st, ⟨false, false⟩)
      | some content =>
        let assetUuid := st.db.nextAssetUuid
        let working_path := storagePath "working" assetUuid p.name
        let fs1 := fsWrite st.fs (storagePath "originals" assetUuid p.name) content
        let fs2 := fsWrite fs1 working_path content
        let fs3 := fsWrite fs2 (storagePath "metadata" assetUuid "metadata.json") 0
        let imgId := st.db.nextImageId
        let image0 : Image :=
          { id := imgId
            original_filename := p.name
            current_filename := p.name
            file_path := working_path
            ai_description := none
            ai_tags := none
            ai_scene := none
            analyzed := false }
        let image1 :=
          if is_image then
            match ai with
            | some m =>
              { image0 with ai_description := m.description,
                            ai_tags := some m.tags,
                            ai_scene := m.scene,
                            analyzed := true }
            | none => image0
          else image0
        let db1 := { st.db with images := st.db.images ++ [image1],
                                nextImageId := imgId + 1,
                                nextAssetUuid := assetUuid + 1 }
        let genRes := generate_suggestion db1 folder_id image1 p engineName threshold
        let db2 := genRes.1
        let created := genRes.2.isSome
        let db3 := updateFolder db2 folder_id (fun f =>
          { f with analyzed_count := f.analyzed_count + 1,
                   pending_count :=
                     if created then f.pending_count + 1 else f.pending_count })
        let slog : ActivityLog :=
          { id := db3.nextActivityId
            watched_folder_id := some folder_id
            asset_id := some imgId
            action_type := ActivityAction.scan
            original_filename := some p.name
            new_filename := none
            status := "success"
            error_message := none
            is_rollback := false }
        let db4 := { db3 with activity := db3.activity ++ [slog],
                              nextActivityId := db3.nextActivityId + 1 }
        ({ db := db4, fs := fs3 }, ⟨true, created⟩)

/-! ## Approval endpoints (src/app/routers/suggestions.py) -/

/-- Translation of the `approve_suggestion` route: only a Pending
suggestion can be approved; on success the status becomes Approved and
an Approve activity entry is appended.  The returned bool is false on
the 404/400 error responses. -/
def approve_suggestion (db : Db) (sid : Nat) : Db × Bool :=
  match findSuggestion db sid with
  | none => (db, false)
  | some s =>
    if s.status ≠ SuggestionStatus.pending then (db, false)
    else
      let db1 := updateSuggestion db sid (fun t => { t with status := SuggestionStatus.approved })
      let log : ActivityLog :=
        { id := db1.nextActivityId
          watched_folder_id := s.watched_folder_id
          asset_id := s.asset_id
          action_type := ActivityAction.approve
          original_filename := some s.original_filename
          new_filename := some s.suggested_filename
          status := "success"
          error_message := none
          is_rollback := false }
      ({ db1 with activity := db1.activity ++ [log],
                  nextActivityId := db1.nextActivityId + 1 }, true)

/-- Translation of the `reject_suggestion` route, symmetric to
`approve_suggestion` with status Rejected. -/
def reject_suggestion (db : Db) (sid : Nat) : Db × Bool :=
  match findSuggestion db sid with
  | none => (db, false)
  | some s =>
    if s.status ≠ SuggestionStatus.pending then (db, false)
    else
      let db1 := updateSuggestion db sid (fun t => { t with status := SuggestionStatus.rejected })
      let log : ActivityLog :=
        { id := db1.nextActivityId
          watched_folder_id := s.watched_folder_id
          asset_id := s.asset_id
          action_type := ActivityAction.reject
          original_filename := some s.original_filename
          new_filename := some s.suggested_filename
          status := "success"
          error_message := none
          is_rollback := false }
      ({ db1 with activity := db1.activity ++ [log],
                  nextActivityId := db1.nextActivityId + 1 }, true)

/-! ## Rename executor (src/app/workers/rename_executor.py) -/

/-- Outcome dict of `execute_suggestion` / `rollback_rename`: success
with the resulting filename and the id of the activity entry written, or
failure with the error string. -/
inductive ExecOutcome
  | ok (new_filename : String) (logId : Nat)
  | failure (error : String)
  deriving DecidableEq, Repr

/-- The `success` field of the outcome dict. -/
def ExecOutcome.success : ExecOutcome → Bool
  | .ok _ _ => true
  | .failure _ => false

/-- The `error` field of the outcome dict. -/
def ExecOutcome.error : ExecOutcome → Option String
  | .ok _ _ => none
  | .failure e => some e

/-- Extension correction of `execute_suggestion`: append the old path's
suffix unless the suggested filename already ends with it. -/
def correctedName (suggested : String) (old_path : FsPath) : String :=
  if pyEndsWith suggested (nameSuffix old_path.name) then suggested
  else suggested ++ nameSuffix old_path.name

/-- Second half of `execute_suggestion`, from the backup step onwards
(`fs1` is the filesystem after the optional backup copy, `backupMade`
records whether `backup_path` was assigned).  `shutil.copy2` and
`Path.rename` fail exactly when the source file is absent; on rename
failure the backup, if present, is moved back over the original. -/
def executeRenamePhase (st : SysState) (fs1 : FileSystem) (backupMade : Bool)
    (s : RenameSuggestion) (image : Image) (old_path new_path : FsPath)
    (new_filename : String) (backup_path : FsPath) : SysState × ExecOutcome :=
  match fs1 old_path with
  | none =>
      let fsr :=
        if backupMade then
          match fs1 backup_path with
          | some b => fsWrite (fsErase fs1 backup_path) old_path b
          | none => fs1
        else fs1
      ({ st with fs := fsr }, ExecOutcome.failure "Failed to rename file")
  | some content =>
      let fs2 := fsWrite (fsErase fs1 old_path) new_path content
      let db1 := updateImage st.db image.id (fun im =>
        { im with current_filename := new_filename, file_path := new_path })
      let db2 := updateSuggestion db1 s.id (fun t => { t with status := SuggestionStatus.applied })
      let logId := db2.nextActivityId
      let log : ActivityLog :=
        { id := logId
          watched_folder_id := s.watched_folder_id
          asset_id := some image.id
          action_type := ActivityAction.rename
          original_filename := some s.original_filename
          new_filename := some new_filename
          status := "success"
          error_message := none
          is_rollback := false }
      let db3 := { db2 with activity := db2.activity ++ [log], nextActivityId := logId + 1 }
      let db4 :=
        match s.watched_folder_id with
        | none => db3
        | some fid =>
          updateFolder db3 fid (fun f =>
            if 0 < f.pending_count then { f with pending_count := f.pending_count - 1 } else f)
      let fs3 := if backupMade && (fs2 backup_path).isSome then fsErase fs2 backup_path else fs2
      ({ db := db4, fs := fs3 }, ExecOutcome.ok new_filename logId)

/-- Middle part of `RenameExecutor.execute_suggestion`, once the
suggestion and its image are resolved: extension correction, the
destination-collision check, then the backup-first rename. -/
def executeWithImage (st : SysState) (s : RenameSuggestion) (image : Image)
    (create_backup : Bool) : SysState × ExecOutcome :=
  let old_path := image.file_path
  let new_filename := correctedName s.suggested_filename old_path
  let new_path : FsPath := ⟨old_path.dir, new_filename⟩
  if (st.fs new_path).isSome && decide (new_path ≠ old_path) then
    (st, ExecOutcome.failure ("Target file already exists: " ++ new_filename))
  else
    let backup_path : FsPath := ⟨old_path.dir, old_path.name ++ ".backup"⟩
    if create_backup then
      match st.fs old_path with
      | none => (st, ExecOutcome.failure "Failed to create backup")
      | some c =>
        executeRenamePhase st (fsWrite st.fs backup_path c) true
          s image old_path new_path new_filename backup_path
    else
      executeRenamePhase st st.fs false
        s image old_path new_path new_filename backup_path

/-- Translation of `RenameExecutor.execute_suggestion`: lookups, the
Approved gate, then `executeWithImage` (extension correction, collision
check, backup-first rename and the image / suggestion / activity /
folder updates).  The `except Exception` handler of the Python (which
alone marks a suggestion Failed) has no counterpart: the model is
deterministic and raises nothing unexpectedly. -/
def execute_suggestion (st : SysState) (sid : Nat) (create_backup : Bool) :
    SysState × ExecOutcome :=
  match findSuggestion st.db sid with
  | none => (st, ExecOutcome.failure "Suggestion not found")
  | some s =>
    if s.status ≠ SuggestionStatus.approved then
      (st, ExecOutcome.failure
        ("Suggestion status is " ++ suggestionStatusValue s.status ++ ", not approved"))
    else
      match s.asset_id with
      | none => (st, ExecOutcome.failure "No asset associated with suggestion")
      | some aid =>
        match findImage st.db aid with
        | none => (st, ExecOutcome.failure "Associated asset not found")
        | some image => executeWithImage st s image create_backup

/-- Per-item results of `RenameExecutor.execute_batch`, threading the
state through `execute_suggestion` for each id in order. -/
def executeBatchResults (st : SysState) (ids : List Nat) (create_backups : Bool) :
    SysState × List (Nat × ExecOutcome) :=
  match ids with
  | [] => (st, [])
  | i :: rest =>
    let r := execute_suggestion st i create_backups
    let rs := executeBatchResults r.1 rest create_backups
    (rs.1, (i, r.2) :: rs.2)

/-- Summary dict of `RenameExecutor.execute_batch`. -/
structure BatchOutcome where
  total : Nat
  succeeded : Nat
  failed_count : Nat
  results : List (Nat × ExecOutcome)
  deriving DecidableEq, Repr

/-- Translation of `RenameExecutor.execute_batch`: each id is executed
independently in order, every result is collected, and the success and
failure tallies are reported. -/
def execute_batch (st : SysState) (ids : List Nat) (create_backups : Bool) :
    SysState × BatchOutcome :=
  let r := executeBatchResults st ids create_backups
  (r.1,
    { total := ids.length
      succeeded := (r.2.filter (fun pr => pr.2.success)).length
      failed_count := (r.2.filter (fun pr => !pr.2.success)).length
      results := r.2 })

/-- Translation of `RenameExecutor.rollback_rename`: requires a
successful Rename activity entry with a recorded (truthy) original
filename and an associated image; checks the rollback destination is
free; performs the inverse rename, updates the image row and appends a
new Rename activity entry flagged as a rollback.  Suggestions are never
touched. -/
def rollback_rename (st : SysState) (activity_log_id : Nat) : SysState × ExecOutcome :=
  match findActivity st.db activity_log_id with
  | none => (st, ExecOutcome.failure "Activity log not found")
  | some log =>
    if log.action_type ≠ ActivityAction.rename then
      (st, ExecOutcome.failure "Activity log is not a rename operation")
    else if log.status ≠ "success" then
      (st, ExecOutcome.failure "Cannot rollback failed rename")
    else
      match log.asset_id with
      | none => (st, ExecOutcome.failure "No asset associated with activity log")
      | some aid =>
        match findImage st.db aid with
        | none => (st, ExecOutcome.failure "Associated asset not found")
        | some image =>
          let current_path := image.file_path
          if pyTruthyStr log.original_filename = false then
            (st, ExecOutcome.failure "Original filename not recorded in activity log")
          else
            match log.original_filename with
            | none => (st, ExecOutcome.failure "Original filename not recorded in activity log")
            | some original_filename =>
              let rollback_path : FsPath := ⟨current_path.dir, original_filename⟩
              if (st.fs rollback_path).isSome && decide (rollback_path ≠ current_path) then
                (st, ExecOutcome.failure
                  ("Cannot rollback: original filename exists: " ++ original_filename))
              else
                match st.fs current_path with
                | none => (st, ExecOutcome.failure "Failed to rollback rename")
                | some content =>
                  let fs1 := fsWrite (fsErase st.fs current_path) rollback_path content
                  let db1 := updateImage st.db image.id (fun im =>
                    { im with current_filename := original_filename,
                              file_path := rollback_path })
                  let rlog : ActivityLog :=
                    { id := db1.nextActivityId
                      watched_folder_id := log.watched_folder_id
                      asset_id := some image.id
                      action_type := ActivityAction.rename
                      original_filename := log.new_filename
                      new_filename := some original_filename
                      status := "success"
                      error_message := none
                      is_rollback := true }
                  let db2 := { db1 with activity := db1.activity ++ [rlog],
                                        nextActivityId := db1.nextActivityId + 1 }
                  ({ db := db2, fs := fs1 }, ExecOutcome.ok original_filename rlog.id)

/-- Live count of Pending suggestion rows of one folder (the quantity
the spec says `pending_count` tracks). -/
def livePendingCount (db : Db) (fid : Nat) : Nat :=
  (db.suggestions.filter (fun s =>
    decide (s.watched_folder_id = some fid) && decide (s.status = SuggestionStatus.pending))).length

/-! ## Concrete fixtures used by counterexamples and witnesses -/

/-- Fixture for the C5 witness: a Pending suggestion. -/
def sgC5 : RenameSuggestion :=
  { id := 10, watched_folder_id := some 1, asset_id := some 1,
    original_path := ⟨"/watch", "a.jpg"⟩, original_filename := "a.jpg",
    suggested_filename := "b", confidence_score := 1,
    status := SuggestionStatus.pending }

/-- Fixture for the C5 witness: a store holding only `sgC5`. -/
def stC5 : SysState :=
  { db := { images := [], suggestions := [sgC5], folders := [], activity := [],
            nextImageId := 1, nextSuggestionId := 11, nextActivityId := 1, nextAssetUuid := 0 }
    fs := fun _ => none }

/-- Fixture for C1: a watched source file. -/
def srcC1 : FsPath := ⟨"/watch", "photo.jpg"⟩

/-- Fixture for C1: one registered folder, an empty store, and the
source file on disk. -/
def stC1 : SysState :=
  { db := { images := [], suggestions := [],
            folders := [{ id := 1, file_count := 0, analyzed_count := 0, pending_count := 0 }],
            activity := [],
            nextImageId := 1, nextSuggestionId := 1, nextActivityId := 1, nextAssetUuid := 0 }
    fs := fun q => if q = srcC1 then some 7 else none }

/-- Fixture for the C2 counterexample: a Pending suggestion of folder 1. -/
def sgC2 : RenameSuggestion :=
  { id := 10, watched_folder_id := some 1, asset_id := some 1,
    original_path := ⟨"/w", "a.jpg"⟩, original_filename := "a.jpg",
    suggested_filename := "b", confidence_score := 1,
    status := SuggestionStatus.pending }

/-- Fixture for the C2 counterexample: folder 1 with `pending_count = 1`
matching its single Pending suggestion. -/
def dbC2 : Db :=
  { images := [], suggestions := [sgC2],
    folders := [{ id := 1, file_count := 1, analyzed_count := 1, pending_count := 1 }],
    activity := [],
    nextImageId := 2, nextSuggestionId := 11, nextActivityId := 1, nextAssetUuid := 1 }

/-- Fixture for C3/C6: the asset whose file is to be renamed. -/
def imC3 : Image :=
  { id := 1, original_filename := "a.jpg", current_filename := "a.jpg",
    file_path := ⟨"/w", "a.jpg"⟩, ai_description := none, ai_tags := none,
    ai_scene := none, analyzed := false }

/-- Fixture for C3/C6: an Approved suggestion whose corrected destination
`b.jpg` collides with an existing distinct file. -/
def sgC3 : RenameSuggestion :=
  { id := 10, watched_folder_id := some 1, asset_id := some 1,
    original_path := ⟨"/w", "a.jpg"⟩, original_filename := "a.jpg",
    suggested_filename := "b", confidence_score := 1,
    status := SuggestionStatus.approved }

/-- Fixture for C3/C6: the state with both `a.jpg` and the colliding
destination `b.jpg` on disk. -/
def stC3 : SysState :=
  { db := { images := [imC3], suggestions := [sgC3],
            folders := [{ id := 1, file_count := 1, analyzed_count := 1, pending_count := 1 }],
            activity := [],
            nextImageId := 2, nextSuggestionId := 11, nextActivityId := 1, nextAssetUuid := 1 }
    fs := fun q =>
      if q = ⟨"/w", "a.jpg"⟩ then some 7
      else if q = ⟨"/w", "b.jpg"⟩ then some 8
      else none }

/-- Fixture for the C4 counterexample: an asset with no description but
with one tag and a scene. -/
def imC4 : Image :=
  { id := 1, original_filename := "a.jpg", current_filename := "a.jpg",
    file_path := ⟨"/w", "a.jpg"⟩, ai_description := none,
    ai_tags := some ["beach"], ai_scene := some "outdoor", analyzed := true }

/-- Fixture for C2/C7 witnesses: an analyzed asset whose file is on disk. -/
def imE : Image :=
  { id := 1, original_filename := "IMG_0001.jpg", current_filename := "IMG_0001.jpg",
    file_path := ⟨"/work", "IMG_0001.jpg"⟩, ai_description := some "d",
    ai_tags := some ["t"], ai_scene := some "s", analyzed := true }

/-- Fixture for C2/C7 witnesses: an Approved suggestion for `imE` whose
destination is free. -/
def sgE : RenameSuggestion :=
  { id := 10, watched_folder_id := some 1, asset_id := some 1,
    original_path := ⟨"/watch", "IMG_0001.jpg"⟩, original_filename := "IMG_0001.jpg",
    suggested_filename := "sunset", confidence_score := 1,
    status := SuggestionStatus.approved }

/-- Fixture for C2/C7 witnesses: the executable state around `sgE`. -/
def stE : SysState :=
  { db := { images := [imE], suggestions := [sgE],
            folders := [{ id := 1, file_count := 1, analyzed_count := 1, pending_count := 1 }],
            activity := [],
            nextImageId := 2, nextSuggestionId := 11, nextActivityId := 5, nextAssetUuid := 3 }
    fs := fun q => if q = ⟨"/work", "IMG_0001.jpg"⟩ then some 7 else none }

/-! ## General helper lemmas -/

/-- A string equals the empty string iff its length is zero. -/
lemma string_eq_empty_iff (s : String) : s = "" ↔ s.length = 0 := by
  constructor
  · rintro rfl; rfl
  · intro h
    cases s with
    | mk data =>
      have hd : data = [] := List.length_eq_zero.mp h
      subst hd; rfl

/-- Appending the backup suffix always changes a filename. -/
lemma append_backup_ne (s : String) : s ++ ".backup" ≠ s := by
  intro h
  have hl : (s ++ ".backup").length = s.length := congrArg String.length h
  rw [String.length_append] at hl
  have h7 : (".backup" : String).length = 7 := rfl
  omega

/-- Splitting a list by a Boolean predicate preserves the total length. -/
lemma length_filter_add_length_filter_not {α} (l : List α) (p : α → Bool) :
    (l.filter p).length + (l.filter (fun a => !p a)).length = l.length := by
  induction l with
  | nil => rfl
  | cons a as ih =>
    by_cases h : p a = true
    · simp [List.filter_cons, h, ih]; omega
    · simp only [Bool.not_eq_true] at h
      simp [List.filter_cons, h, ih]; omega

/-- Finding in a mapped list, when the map preserves the predicate. -/
lemma find?_map_of_pred {α} (l : List α) (f : α → α) (p q : α → Bool)
    (h : ∀ a, p (f a) = q a) : (l.map f).find? p = (l.find? q).map f := by
  induction l with
  | nil => rfl
  | cons a as ih =>
    by_cases hq : q a = true
    · rw [List.map_cons, List.find?_cons_of_pos _ (by rw [h a]; exact hq),
        List.find?_cons_of_pos _ hq]
      rfl
    · rw [List.map_cons, List.find?_cons_of_neg _ (by rw [h a]; exact hq),
        List.find?_cons_of_neg _ hq, ih]

/-- Finding in an appended list when nothing on the left matches. -/
lemma find?_append_of_left_none {α} (l₁ l₂ : List α) (p : α → Bool)
    (h : ∀ a ∈ l₁, p a = false) : (l₁ ++ l₂).find? p = l₂.find? p := by
  induction l₁ with
  | nil => rfl
  | cons a as ih =>
    rw [List.cons_append, List.find?_cons_of_neg _ (by simp [h a (by simp)]),
      ih (fun x hx => h x (by simp [hx]))]

/-! ## Claim C9: dot-files are never enqueued -/

/-- C9: a file whose name begins with a dot is never ingested: the live
event handler's `_is_valid_file` rejects it, `scan_folder`'s enumeration
drops it, and it does not contribute to the folder's `file_count`. -/
theorem dotfiles_never_enqueued (p : FsPath) (entries : List FsPath)
    (h : pyStartsWith p.name "." = true) :
    is_valid_file p = false ∧
    scan_files (p :: entries) = scan_files entries ∧
    scan_file_count (p :: entries) = scan_file_count entries := by
  have hvalid : is_valid_file p = false := by
    unfold is_valid_file
    rw [h]
    simp
  have hscan : scan_files (p :: entries) = scan_files entries := by
    unfold scan_files
    rw [List.filter_cons]
    simp [h]
  exact ⟨hvalid, hscan, by unfold scan_file_count; rw [hscan]⟩

/-- Witness for C9 at a concrete hidden file with an allowed extension. -/
theorem dotfiles_never_enqueued_witness :
    is_valid_file ⟨"/watch", ".hidden.jpg"⟩ = false ∧
    scan_files [⟨"/watch", ".hidden.jpg"⟩, ⟨"/watch", "a.jpg"⟩] =
      scan_files [(⟨"/watch", "a.jpg"⟩ : FsPath)] ∧
    scan_file_count [⟨"/watch", ".hidden.jpg"⟩, ⟨"/watch", "a.jpg"⟩] =
      scan_file_count [(⟨"/watch", "a.jpg"⟩ : FsPath)] :=
  dotfiles_never_enqueued ⟨"/watch", ".hidden.jpg"⟩ [⟨"/watch", "a.jpg"⟩] (by decide)

/-! ## Claim C8: batch execution is per-item and total -/

/-- Requested ids of a batch run are exactly the ids of the reported
results, in order. -/
lemma executeBatchResults_fst (st : SysState) (ids : List Nat) (b : Bool) :
    (executeBatchResults st ids b).2.map Prod.fst = ids := by
  induction ids generalizing st with
  | nil => rfl
  | cons i rest ih =>
    unfold executeBatchResults
    simp [ih]

/-- C8: `execute_batch` attempts every requested id independently in
order: the results list has exactly one entry per requested id (same
ids, same order, so a failure never prevents later items from being
attempted), and the succeeded and failed tallies always sum to the
total, which is the number of requested ids. -/
theorem execute_batch_per_item (st : SysState) (ids : List Nat) (b : Bool) :
    ((execute_batch st ids b).2).results.map Prod.fst = ids ∧
    ((execute_batch st ids b).2).results.length = ids.length ∧
    ((execute_batch st ids b).2).total = ids.length ∧
    ((execute_batch st ids b).2).succeeded + ((execute_batch st ids b).2).failed_count =
      ((execute_batch st ids b).2).total := by
  refine ⟨executeBatchResults_fst st ids b, ?_, rfl, ?_⟩
  · have := congrArg List.length (executeBatchResults_fst st ids b)
    simpa using this
  · show ((executeBatchResults st ids b).2.filter (fun pr => pr.2.success)).length +
      ((executeBatchResults st ids b).2.filter (fun pr => !pr.2.success)).length = ids.length
    rw [length_filter_add_length_filter_not]
    have := congrArg List.length (executeBatchResults_fst st ids b)
    simpa using this

/-! ## Claim C5: executing a non-Approved suggestion is a guarded no-op -/

/-- C5: for a suggestion whose status is not Approved,
`execute_suggestion` returns the state-conflict error verbatim and the
whole system state — suggestion, asset rows, folder counters and
filesystem — is returned untouched; in particular a Pending suggestion
stays Pending, so it can never step directly to Applied. -/
theorem execute_requires_approved (st : SysState) (sid : Nat) (b : Bool)
    (s : RenameSuggestion)
    (h1 : findSuggestion st.db sid = some s)
    (h2 : s.status ≠ SuggestionStatus.approved) :
    execute_suggestion st sid b =
      (st, ExecOutcome.failure
        ("Suggestion status is " ++ suggestionStatusValue s.status ++ ", not approved")) ∧
    (execute_suggestion st sid b).2.success = false ∧
    findSuggestion (execute_suggestion st sid b).1.db sid = some s := by
  have heq : execute_suggestion st sid b =
      (st, ExecOutcome.failure
        ("Suggestion status is " ++ suggestionStatusValue s.status ++ ", not approved")) := by
    unfold execute_suggestion
    rw [h1]
    simp [h2]
  refine ⟨heq, ?_, ?_⟩
  · rw [heq]; rfl
  · rw [heq]; exact h1

/-- Witness for C5: executing the Pending suggestion `sgC5` fails with
the state-conflict error and mutates nothing. -/
theorem execute_requires_approved_witness :
    execute_suggestion stC5 10 true =
      (stC5, ExecOutcome.failure
        ("Suggestion status is " ++ suggestionStatusValue sgC5.status ++ ", not approved")) ∧
    (execute_suggestion stC5 10 true).2.success = false ∧
    findSuggestion (execute_suggestion stC5 10 true).1.db 10 = some sgC5 :=
  execute_requires_approved stC5 10 true sgC5 (by decide) (by decide)

/-! ## Claim C1: re-import of the same path duplicates the asset (bug) -/

/-- C1, evaluated at the failing input: processing the same source file
`/watch/photo.jpg` twice reports success both times, but the second run
is not a no-op — a second `Image` row is created, because the duplicate
check compares `Image.file_path` (which stores the storage working-copy
path) against the watched source path and therefore never matches. -/
theorem reimport_duplicates_asset :
    ((process_file stC1 1 srcC1 none "n" 1).2).success = true ∧
    ((process_file stC1 1 srcC1 none "n" 1).1).db.images.length = 1 ∧
    ((process_file (process_file stC1 1 srcC1 none "n" 1).1 1 srcC1 none "n" 1).2).success = true ∧
    ((process_file (process_file stC1 1 srcC1 none "n" 1).1 1 srcC1 none "n" 1).1).db.images.length = 2 := by
  decide

/-! ## Claim C2: `pending_count` is not reconciled by approve/reject -/

/-- C2 counterexample: starting from a folder whose `pending_count` (1)
equals its live Pending count (1), approving the suggestion leaves
`pending_count` at 1 while the live Pending count drops to 0, so the
claimed equality fails right after an approve operation. -/
theorem approve_detaches_pending_count :
    (findFolder (approve_suggestion dbC2 10).1 1).map WatchedFolder.pending_count = some 1 ∧
    livePendingCount (approve_suggestion dbC2 10).1 1 = 0 ∧
    (findFolder (approve_suggestion dbC2 10).1 1).map WatchedFolder.pending_count ≠
      some ((livePendingCount (approve_suggestion dbC2 10).1 1 : Int)) := by
  refine ⟨by decide, by decide, ?_⟩
  intro h
  have h1 : (findFolder (approve_suggestion dbC2 10).1 1).map WatchedFolder.pending_count
      = some 1 := by decide
  have h2 : livePendingCount (approve_suggestion dbC2 10).1 1 = 0 := by decide
  rw [h1, h2] at h
  simp at h

/-! ## Claim C3: failure paths do not mark the suggestion Failed -/

/-- C3 counterexample: an Approved suggestion whose corrected destination
collides with an existing distinct file fails, but its status afterwards
is still Approved, not Failed as the claim states. -/
theorem collision_leaves_suggestion_approved :
    (execute_suggestion stC3 10 true).2.success = false ∧
    (findSuggestion (execute_suggestion stC3 10 true).1.db 10).map RenameSuggestion.status =
      some SuggestionStatus.approved ∧
    (findSuggestion (execute_suggestion stC3 10 true).1.db 10).map RenameSuggestion.status ≠
      some SuggestionStatus.failed := by
  decide

/-! ## Claim C4: confidence shape -/

/-- Truthiness of an optional string is exactly nonzero length. -/
lemma pyTruthyStr_eq_descLen (d : Option String) :
    pyTruthyStr d = decide (descLen d ≠ 0) := by
  cases d with
  | none => rfl
  | some s =>
    by_cases h : s = ""
    · subst h; rfl
    · have h2 : s.length ≠ 0 := fun hl => h ((string_eq_empty_iff s).mpr hl)
      have hb : (s == "") = false := beq_eq_false_iff_ne.mpr h
      have hd : decide (descLen (some s) ≠ 0) = true := decide_eq_true h2
      show (!(s == "")) = decide (descLen (some s) ≠ 0)
      rw [hb, hd]
      rfl

/-- The tag guard of the confidence function is exactly a nonzero tag
count. -/
lemma tags_cond_eq (t : Option (List String)) :
    (pyTruthyList t && decide (0 < tagsLen t)) = decide (tagsLen t ≠ 0) := by
  match t with
  | none => rfl
  | some [] => rfl
  | some (a :: l) =>
    show (true && decide (0 < l.length + 1)) = decide (l.length + 1 ≠ 0)
    simp

/-- Evaluation of the confidence function as a sum of the three
per-factor scores, clamped at 1. -/
lemma calculate_confidence_eval (image : Image) :
    calculate_confidence image =
      min 1 (descScore (descLen image.ai_description) + tagScore (tagsLen image.ai_tags)
        + sceneScore (pyTruthyStr image.ai_scene)) := by
  unfold calculate_confidence descScore tagScore sceneScore
  rw [pyTruthyStr_eq_descLen, tags_cond_eq]
  by_cases h1 : descLen image.ai_description = 0 <;>
    by_cases h2 : tagsLen image.ai_tags = 0 <;>
      by_cases h3 : pyTruthyStr image.ai_scene = true <;>
        · simp [h1, h2, h3]
          try (congr 1; ring)
          try ring

/-- The description score is nonnegative. -/
lemma descScore_nonneg (n : Nat) : 0 ≤ descScore n := by
  unfold descScore
  split_ifs with h1 h2
  · exact le_refl 0
  · exact add_nonneg (by norm_num) (le_min (by norm_num) (by positivity))
  · norm_num

/-- The description score is monotone in the description length. -/
lemma descScore_mono {m n : Nat} (h : m ≤ n) : descScore m ≤ descScore n := by
  by_cases hm : m = 0
  · have h0 : descScore 0 = 0 := by unfold descScore; simp
    rw [hm, h0]
    exact descScore_nonneg n
  · have hn : n ≠ 0 := by omega
    unfold descScore
    rw [if_neg hm, if_neg hn]
    have hb : (if 50 < m then min (1/10 : ℚ) ((m : ℚ) / 1000) else 0) ≤
        (if 50 < n then min (1/10 : ℚ) ((n : ℚ) / 1000) else 0) := by
      by_cases h50 : 50 < m
      · rw [if_pos h50, if_pos (by omega : 50 < n)]
        have hc : (m : ℚ) ≤ (n : ℚ) := by exact_mod_cast h
        exact min_le_min (le_refl _) (by linarith)
      · rw [if_neg h50]
        split_ifs with h50n
        · exact le_min (by norm_num) (by positivity)
        · exact le_refl 0
    linarith

/-- The tag score is nonnegative. -/
lemma tagScore_nonneg (n : Nat) : 0 ≤ tagScore n := by
  unfold tagScore
  split_ifs with h1 h2
  · exact le_refl 0
  · exact add_nonneg (by norm_num) (le_min (by norm_num) (by positivity))
  · norm_num

/-- The tag score is monotone in the tag count. -/
lemma tagScore_mono {m n : Nat} (h : m ≤ n) : tagScore m ≤ tagScore n := by
  by_cases hm : m = 0
  · have h0 : tagScore 0 = 0 := by unfold tagScore; simp
    rw [hm, h0]
    exact tagScore_nonneg n
  · have hn : n ≠ 0 := by omega
    unfold tagScore
    rw [if_neg hm, if_neg hn]
    have hb : (if 3 < m then min (1/10 : ℚ) ((m : ℚ) / 50) else 0) ≤
        (if 3 < n then min (1/10 : ℚ) ((n : ℚ) / 50) else 0) := by
      by_cases h3 : 3 < m
      · rw [if_pos h3, if_pos (by omega : 3 < n)]
        have hc : (m : ℚ) ≤ (n : ℚ) := by exact_mod_cast h
        exact min_le_min (le_refl _) (by linarith)
      · rw [if_neg h3]
        split_ifs with h3n
        · exact le_min (by norm_num) (by positivity)
        · exact le_refl 0
    linarith

/-- The scene score is nonnegative. -/
lemma sceneScore_nonneg (b : Bool) : 0 ≤ sceneScore b := by
  unfold sceneScore
  split_ifs <;> norm_num

/-- The scene score is monotone in scene presence. -/
lemma sceneScore_mono {b₁ b₂ : Bool} (h : b₁ = true → b₂ = true) :
    sceneScore b₁ ≤ sceneScore b₂ := by
  cases b₁ with
  | false =>
    have h0 : sceneScore false = 0 := rfl
    rw [h0]
    exact sceneScore_nonneg b₂
  | true => rw [h rfl]

/-- C4, amended: the confidence is monotonically non-decreasing in
description length, tag count and scene presence and always lies in
[0,1]; an asset with no (empty/null) description never gets a
suggestion row — generation returns early — but its confidence is
`min 1 (tag score + scene score)`, not necessarily 0. -/
theorem confidence_monotone_bounded :
    (∀ (img : Image) (d₁ d₂ : Option String), descLen d₁ ≤ descLen d₂ →
      calculate_confidence { img with ai_description := d₁ } ≤
        calculate_confidence { img with ai_description := d₂ }) ∧
    (∀ (img : Image) (t₁ t₂ : Option (List String)), tagsLen t₁ ≤ tagsLen t₂ →
      calculate_confidence { img with ai_tags := t₁ } ≤
        calculate_confidence { img with ai_tags := t₂ }) ∧
    (∀ (img : Image) (sc₁ sc₂ : Option String),
      (pyTruthyStr sc₁ = true → pyTruthyStr sc₂ = true) →
      calculate_confidence { img with ai_scene := sc₁ } ≤
        calculate_confidence { img with ai_scene := sc₂ }) ∧
    (∀ img : Image, 0 ≤ calculate_confidence img ∧ calculate_confidence img ≤ 1) ∧
    (∀ img : Image, pyTruthyStr img.ai_description = false →
      calculate_confidence img =
        min 1 (tagScore (tagsLen img.ai_tags) + sceneScore (pyTruthyStr img.ai_scene))) ∧
    (∀ (db : Db) (fid : Nat) (img : Image) (pth : FsPath) (en : String) (θ : ℚ),
      pyTruthyStr img.ai_description = false →
      generate_suggestion db fid img pth en θ = (db, none)) := by
  refine ⟨?_, ?_, ?_, ?_, ?_, ?_⟩
  · intro img d₁ d₂ h
    rw [calculate_confidence_eval, calculate_confidence_eval]
    exact min_le_min (le_refl _)
      (by have := descScore_mono h; linarith)
  · intro img t₁ t₂ h
    rw [calculate_confidence_eval, calculate_confidence_eval]
    exact min_le_min (le_refl _)
      (by have := tagScore_mono h; linarith)
  · intro img sc₁ sc₂ h
    rw [calculate_confidence_eval, calculate_confidence_eval]
    exact min_le_min (le_refl _)
      (by have := sceneScore_mono h; linarith)
  · intro img
    rw [calculate_confidence_eval]
    constructor
    · exact le_min zero_le_one
        (add_nonneg (add_nonneg (descScore_nonneg _) (tagScore_nonneg _)) (sceneScore_nonneg _))
    · exact min_le_left _ _
  · intro img h
    rw [calculate_confidence_eval]
    have h0 : descLen img.ai_description = 0 := by
      rw [pyTruthyStr_eq_descLen] at h
      simpa using h
    rw [h0]
    have hd : descScore 0 = 0 := by unfold descScore; simp
    rw [hd, zero_add]
  · intro db fid img pth en θ h
    unfold generate_suggestion
    rw [if_pos h]

/-- Witness for C4 at concrete inputs: monotonicity from no description
to a one-character description, and the early return of suggestion
generation for a descriptionless asset. -/
theorem confidence_monotone_bounded_witness :
    calculate_confidence { imC4 with ai_description := none } ≤
      calculate_confidence { imC4 with ai_description := some "x" } ∧
    generate_suggestion dbC2 1 imC4 ⟨"/w", "a.jpg"⟩ "n" 1 = (dbC2, none) :=
  ⟨confidence_monotone_bounded.1 imC4 none (some "x") (by decide),
   confidence_monotone_bounded.2.2.2.2.2 dbC2 1 imC4 ⟨"/w", "a.jpg"⟩ "n" 1 (by decide)⟩

/-- C4 counterexample: an asset with no description, one tag and a scene
has confidence 1/2, refuting "confidence exactly 0 for assets with no
description". -/
theorem no_description_confidence_nonzero :
    calculate_confidence imC4 = 1/2 ∧ ((1 : ℚ)/2 ≠ 0) := by
  constructor
  · rw [calculate_confidence_eval]
    have h1 : descLen imC4.ai_description = 0 := by decide
    have h2 : tagsLen imC4.ai_tags = 1 := by decide
    have h3 : pyTruthyStr imC4.ai_scene = true := by decide
    rw [h1, h2, h3]
    unfold descScore tagScore sceneScore
    norm_num
  · norm_num

/-! ## Branch characterizations of the pipeline operations -/

/-- A path never equals its sibling backup path. -/
lemma backup_path_ne (p : FsPath) : (⟨p.dir, p.name ++ ".backup"⟩ : FsPath) ≠ p := by
  intro h
  exact append_backup_ne p.name (congrArg FsPath.name h)

/-- Approving never touches the folder rows. -/
lemma approve_folders_eq (db : Db) (sid : Nat) :
    ((approve_suggestion db sid).1).folders = db.folders := by
  simp only [approve_suggestion]
  split
  · rfl
  · split
    · rfl
    · rfl

/-- Rejecting never touches the folder rows. -/
lemma reject_folders_eq (db : Db) (sid : Nat) :
    ((reject_suggestion db sid).1).folders = db.folders := by
  simp only [reject_suggestion]
  split
  · rfl
  · split
    · rfl
    · rfl

/-- Rollback never touches the folder rows. -/
lemma rollback_folders_eq (st : SysState) (lid : Nat) :
    ((rollback_rename st lid).1).db.folders = st.db.folders := by
  simp only [rollback_rename]
  split
  · rfl
  · split
    · rfl
    · split
      · rfl
      · split
        · rfl
        · split
          · rfl
          · split
            · rfl
            · split
              · rfl
              · split
                · rfl
                · split
                  · rfl
                  · rfl

/-- Rollback never touches the suggestion rows. -/
lemma rollback_suggestions_eq (st : SysState) (lid : Nat) :
    ((rollback_rename st lid).1).db.suggestions = st.db.suggestions := by
  simp only [rollback_rename]
  split
  · rfl
  · split
    · rfl
    · split
      · rfl
      · split
        · rfl
        · split
          · rfl
          · split
            · rfl
            · split
              · rfl
              · split
                · rfl
                · split
                  · rfl
                  · rfl

/-- Suggestion generation never touches the folder rows. -/
lemma generate_suggestion_folders_eq (db : Db) (fid : Nat) (img : Image)
    (pth : FsPath) (en : String) (θ : ℚ) :
    ((generate_suggestion db fid img pth en θ).1).folders = db.folders := by
  simp only [generate_suggestion]
  split
  · rfl
  · split
    · rfl
    · rfl

/-- The rename phase leaves the folder rows unchanged or applies the
guarded decrement to the suggestion's folder. -/
lemma executeRenamePhase_folders (st : SysState) (fs1 : FileSystem) (bm : Bool)
    (s : RenameSuggestion) (image : Image) (old_path new_path : FsPath)
    (nf : String) (bp : FsPath) :
    ((executeRenamePhase st fs1 bm s image old_path new_path nf bp).1).db.folders =
      st.db.folders ∨
    ∃ fid, s.watched_folder_id = some fid ∧
      ((executeRenamePhase st fs1 bm s image old_path new_path nf bp).1).db.folders =
        st.db.folders.map (fun f => if f.id = fid then
          (if 0 < f.pending_count then { f with pending_count := f.pending_count - 1 } else f)
          else f) := by
  simp only [executeRenamePhase]
  split
  · left; rfl
  · cases hw : s.watched_folder_id with
    | none => left; simp only [hw]; rfl
    | some fid => right; exact ⟨fid, rfl, by simp only [hw]; rfl⟩

/-- The resolved execution phase leaves the folder rows unchanged or
applies the guarded decrement to the suggestion's folder. -/
lemma executeWithImage_folders (st : SysState) (s : RenameSuggestion) (image : Image)
    (b : Bool) :
    ((executeWithImage st s image b).1).db.folders = st.db.folders ∨
    ∃ fid, s.watched_folder_id = some fid ∧
      ((executeWithImage st s image b).1).db.folders =
        st.db.folders.map (fun f => if f.id = fid then
          (if 0 < f.pending_count then { f with pending_count := f.pending_count - 1 } else f)
          else f) := by
  simp only [executeWithImage]
  split
  · left; rfl
  split
  · split
    · left; rfl
    rename_i c hsrc
    exact executeRenamePhase_folders st
      (fsWrite st.fs ⟨image.file_path.dir, image.file_path.name ++ ".backup"⟩ c) true s image
      image.file_path
      ⟨image.file_path.dir, correctedName s.suggested_filename image.file_path⟩
      (correctedName s.suggested_filename image.file_path)
      ⟨image.file_path.dir, image.file_path.name ++ ".backup"⟩
  · exact executeRenamePhase_folders st st.fs false s image
      image.file_path
      ⟨image.file_path.dir, correctedName s.suggested_filename image.file_path⟩
      (correctedName s.suggested_filename image.file_path)
      ⟨image.file_path.dir, image.file_path.name ++ ".backup"⟩

/-- Executing a suggestion leaves the folder rows unchanged or applies
the guarded decrement to the suggestion's folder. -/
lemma execute_folders (st : SysState) (sid : Nat) (b : Bool) :
    ((execute_suggestion st sid b).1).db.folders = st.db.folders ∨
    ∃ s : RenameSuggestion, findSuggestion st.db sid = some s ∧
    ∃ fid, s.watched_folder_id = some fid ∧
      ((execute_suggestion st sid b).1).db.folders =
        st.db.folders.map (fun f => if f.id = fid then
          (if 0 < f.pending_count then { f with pending_count := f.pending_count - 1 } else f)
          else f) := by
  simp only [execute_suggestion]
  split
  · left; rfl
  rename_i s hfind
  split
  · left; rfl
  split
  · left; rfl
  rename_i aid hasset
  split
  · left; rfl
  rename_i image himg
  rcases executeWithImage_folders st s image b with h | ⟨fid, hw, h⟩
  · left; exact h
  · right; exact ⟨s, hfind, fid, hw, h⟩

/-- Reduction of `execute_suggestion` to its resolved phase when the
suggestion is found, Approved, and its asset resolves. -/
lemma execute_reduces (st : SysState) (sid : Nat) (b : Bool)
    (s : RenameSuggestion) (aid : Nat) (image : Image)
    (h1 : findSuggestion st.db sid = some s)
    (h2 : s.status = SuggestionStatus.approved)
    (h3 : s.asset_id = some aid)
    (h4 : findImage st.db aid = some image) :
    execute_suggestion st sid b = executeWithImage st s image b := by
  simp [execute_suggestion, h1, h2, h3, h4]

/-- The resolved execution phase fails verbatim on a destination
collision. -/
lemma executeWithImage_collision (st : SysState) (s : RenameSuggestion) (image : Image)
    (b : Bool)
    (hcond : ((st.fs ⟨image.file_path.dir,
        correctedName s.suggested_filename image.file_path⟩).isSome &&
      decide ((⟨image.file_path.dir,
        correctedName s.suggested_filename image.file_path⟩ : FsPath) ≠
          image.file_path)) = true) :
    executeWithImage st s image b =
      (st, ExecOutcome.failure
        ("Target file already exists: " ++ correctedName s.suggested_filename image.file_path)) := by
  simp only [executeWithImage]
  rw [if_pos hcond]

/-- The resolved execution phase either fails with the state returned
exactly as given, or succeeds. -/
lemma executeWithImage_fail_or_ok (st : SysState) (s : RenameSuggestion) (image : Image)
    (b : Bool) :
    (∃ e, executeWithImage st s image b = (st, ExecOutcome.failure e)) ∨
    (executeWithImage st s image b).2.success = true := by
  simp only [executeWithImage]
  split
  · exact Or.inl ⟨"Target file already exists: " ++
      correctedName s.suggested_filename image.file_path, rfl⟩
  split
  · split
    · exact Or.inl ⟨"Failed to create backup", rfl⟩
    rename_i c hsrc
    right
    have hfs1 : fsWrite st.fs ⟨image.file_path.dir, image.file_path.name ++ ".backup"⟩ c
        image.file_path = some c := by
      simp only [fsWrite]
      rw [if_neg (fun h => backup_path_ne image.file_path h.symm)]
      exact hsrc
    simp only [executeRenamePhase, hfs1]
    rfl
  · simp only [executeRenamePhase]
    split
    · exact Or.inl ⟨"Failed to rename file", rfl⟩
    · right; rfl

/-- Two sibling paths with different names differ. -/
lemma fspath_ne_of_name_ne {d n₁ n₂ : String} (h : n₁ ≠ n₂) :
    (⟨d, n₁⟩ : FsPath) ≠ ⟨d, n₂⟩ :=
  fun he => h (congrArg FsPath.name he)

/-- Components of the rename phase on its success path (the source file
is present in `fs1`): the outcome, the image and suggestion row updates,
the appended Rename activity entry, the id counter, and the final
filesystem. -/
lemma executeRenamePhase_ok (st : SysState) (fs1 : FileSystem) (bm : Bool)
    (s : RenameSuggestion) (image : Image) (old new : FsPath) (nf : String) (bp : FsPath)
    (c : Nat) (hfs1 : fs1 old = some c) :
    (executeRenamePhase st fs1 bm s image old new nf bp).2 =
      ExecOutcome.ok nf st.db.nextActivityId ∧
    ((executeRenamePhase st fs1 bm s image old new nf bp).1).db.images =
      st.db.images.map (fun im => if im.id = image.id then
        { im with current_filename := nf, file_path := new } else im) ∧
    ((executeRenamePhase st fs1 bm s image old new nf bp).1).db.suggestions =
      st.db.suggestions.map (fun t => if t.id = s.id then
        { t with status := SuggestionStatus.applied } else t) ∧
    ((executeRenamePhase st fs1 bm s image old new nf bp).1).db.activity =
      st.db.activity ++
        [{ id := st.db.nextActivityId, watched_folder_id := s.watched_folder_id,
           asset_id := some image.id, action_type := ActivityAction.rename,
           original_filename := some s.original_filename, new_filename := some nf,
           status := "success", error_message := none, is_rollback := false }] ∧
    ((executeRenamePhase st fs1 bm s image old new nf bp).1).db.nextActivityId =
      st.db.nextActivityId + 1 ∧
    ((executeRenamePhase st fs1 bm s image old new nf bp).1).fs =
      (if bm && ((fsWrite (fsErase fs1 old) new c) bp).isSome then
        fsErase (fsWrite (fsErase fs1 old) new c) bp
      else fsWrite (fsErase fs1 old) new c) := by
  refine ⟨?_, ?_, ?_, ?_, ?_, ?_⟩ <;>
    simp only [executeRenamePhase, hfs1] <;>
    first
      | rfl
      | (cases hw : s.watched_folder_id <;> rfl)

/-- Inversion of a successful execution: the suggestion must have been
Approved with a resolvable asset, and the run reduces to the resolved
phase. -/
lemma execute_success_inversion (st : SysState) (sid : Nat) (b : Bool)
    (s : RenameSuggestion)
    (hs : findSuggestion st.db sid = some s)
    (hok : (execute_suggestion st sid b).2.success = true) :
    s.status = SuggestionStatus.approved ∧
    ∃ aid image, s.asset_id = some aid ∧ findImage st.db aid = some image ∧
      execute_suggestion st sid b = executeWithImage st s image b := by
  by_cases hst : s.status = SuggestionStatus.approved
  · cases ha : s.asset_id with
    | none =>
      exfalso
      have heq : execute_suggestion st sid b =
          (st, ExecOutcome.failure "No asset associated with suggestion") := by
        simp [execute_suggestion, hs, hst, ha]
      rw [heq] at hok
      simp [ExecOutcome.success] at hok
    | some aid =>
      cases him : findImage st.db aid with
      | none =>
        exfalso
        have heq : execute_suggestion st sid b =
            (st, ExecOutcome.failure "Associated asset not found") := by
          simp [execute_suggestion, hs, hst, ha, him]
        rw [heq] at hok
        simp [ExecOutcome.success] at hok
      | some image =>
        exact ⟨hst, aid, image, rfl, him, execute_reduces st sid b s aid image hs hst ha him⟩
  · exfalso
    have heq : execute_suggestion st sid b =
        (st, ExecOutcome.failure
          ("Suggestion status is " ++ suggestionStatusValue s.status ++ ", not approved")) := by
      simp [execute_suggestion, hs, hst]
    rw [heq] at hok
    simp [ExecOutcome.success] at hok

/-- On the success path the rename phase applies exactly the guarded
decrement to the suggestion's folder (and touches no other folder). -/
lemma executeRenamePhase_success_folders (st : SysState) (fs1 : FileSystem) (bm : Bool)
    (s : RenameSuggestion) (image : Image) (old new : FsPath) (nf : String) (bp : FsPath) :
    (executeRenamePhase st fs1 bm s image old new nf bp).2.success = true →
    ((executeRenamePhase st fs1 bm s image old new nf bp).1).db.folders =
      st.db.folders.map (fun f => if s.watched_folder_id = some f.id then
        (if 0 < f.pending_count then { f with pending_count := f.pending_count - 1 } else f)
        else f) := by
  simp only [executeRenamePhase]
  split
  · intro h
    simp [ExecOutcome.success] at h
  · intro _
    cases hw : s.watched_folder_id with
    | none =>
      simp only [hw]
      have hfun : (fun (f : WatchedFolder) =>
          if (none : Option Nat) = some f.id then
            (if 0 < f.pending_count then { f with pending_count := f.pending_count - 1 } else f)
          else f) = fun f => f := by
        funext f
        simp
      rw [hfun, List.map_id']
      rfl
    | some fid =>
      simp only [hw, updateFolder]
      have hfun : (fun (f : WatchedFolder) =>
          if some fid = some f.id then
            (if 0 < f.pending_count then { f with pending_count := f.pending_count - 1 } else f)
          else f) = fun f =>
          if f.id = fid then
            (if 0 < f.pending_count then { f with pending_count := f.pending_count - 1 } else f)
          else f := by
        funext f
        by_cases h : f.id = fid
        · simp [h]
        · simp [h, Ne.symm h]
      rw [hfun]
      rfl

/-- On the success path the resolved execution phase applies exactly the
guarded decrement to the suggestion's folder. -/
lemma executeWithImage_success_folders (st : SysState) (s : RenameSuggestion)
    (image : Image) (b : Bool) :
    (executeWithImage st s image b).2.success = true →
    ((executeWithImage st s image b).1).db.folders =
      st.db.folders.map (fun f => if s.watched_folder_id = some f.id then
        (if 0 < f.pending_count then { f with pending_count := f.pending_count - 1 } else f)
        else f) := by
  simp only [executeWithImage]
  split
  · intro h
    simp [ExecOutcome.success] at h
  split
  · split
    · intro h
      simp [ExecOutcome.success] at h
    · exact executeRenamePhase_success_folders st _ true s image _ _ _ _
  · exact executeRenamePhase_success_folders st st.fs false s image _ _ _ _

/-- Processing a file leaves the folder rows unchanged or bumps the
target folder's counters (pending only when a suggestion was created). -/
lemma process_file_folders (st : SysState) (fid : Nat) (p : FsPath)
    (ai : Option AiAnalysis) (en : String) (θ : ℚ) :
    ((process_file st fid p ai en θ).1).db.folders = st.db.folders ∨
    ((process_file st fid p ai en θ).1).db.folders =
      st.db.folders.map (fun f => if f.id = fid then
        { f with analyzed_count := f.analyzed_count + 1,
                 pending_count :=
                   if (process_file st fid p ai en θ).2.suggestion_created then
                     f.pending_count + 1
                   else f.pending_count }
        else f) := by
  simp only [process_file]
  split
  · left; rfl
  · split
    · left; rfl
    · split
      · left; rfl
      · split
        · left; rfl
        · split
          · left; rfl
          · right
            simp only [updateFolder]
            rw [generate_suggestion_folders_eq]

/-- On a fresh successful import the target folder's counters are
bumped: `analyzed_count` by one, `pending_count` by one exactly when a
suggestion was created; no other folder row changes. -/
lemma process_file_success_folders (st : SysState) (fid : Nat) (p : FsPath)
    (ai : Option AiAnalysis) (en : String) (θ : ℚ)
    (hdup : findImageByPath st.db p = none) :
    (process_file st fid p ai en θ).2.success = true →
    ((process_file st fid p ai en θ).1).db.folders =
      st.db.folders.map (fun f => if f.id = fid then
        { f with analyzed_count := f.analyzed_count + 1,
                 pending_count :=
                   if (process_file st fid p ai en θ).2.suggestion_created then
                     f.pending_count + 1
                   else f.pending_count }
        else f) := by
  simp only [process_file]
  split
  · intro h
    simp at h
  · split
    · intro h
      simp at h
    · split
      · rename_i hdup2
        rw [hdup] at hdup2
        simp at hdup2
      · split
        · intro h
          simp at h
        · split
          · intro h
            simp at h
          · intro _
            simp only [updateFolder]
            rw [generate_suggestion_folders_eq]

/-! ## Claim C10: `pending_count` never becomes negative -/

/-- C10: every pipeline operation preserves nonnegativity of every
folder's `pending_count`: generation only increments it, the executor
decrements only when strictly positive, and approve / reject / rollback
never touch it. -/
theorem pending_count_nonnegative (st : SysState) (fid sid sid2 sid3 lid : Nat)
    (p : FsPath) (ai : Option AiAnalysis) (en : String) (θ : ℚ) (b : Bool)
    (h : ∀ f ∈ st.db.folders, 0 ≤ f.pending_count) :
    (∀ f ∈ ((process_file st fid p ai en θ).1).db.folders, 0 ≤ f.pending_count) ∧
    (∀ f ∈ ((approve_suggestion st.db sid).1).folders, 0 ≤ f.pending_count) ∧
    (∀ f ∈ ((reject_suggestion st.db sid2).1).folders, 0 ≤ f.pending_count) ∧
    (∀ f ∈ ((execute_suggestion st sid3 b).1).db.folders, 0 ≤ f.pending_count) ∧
    (∀ f ∈ ((rollback_rename st lid).1).db.folders, 0 ≤ f.pending_count) := by
  refine ⟨?_, ?_, ?_, ?_, ?_⟩
  · rcases process_file_folders st fid p ai en θ with hc | hc
    · rw [hc]; exact h
    · rw [hc]
      intro f' hf'
      rcases List.mem_map.mp hf' with ⟨f, hf, rfl⟩
      have hnn := h f hf
      split_ifs <;> simp <;> omega
  · rw [approve_folders_eq]; exact h
  · rw [reject_folders_eq]; exact h
  · rcases execute_folders st sid3 b with hc | ⟨s, _, fid', _, hc⟩
    · rw [hc]; exact h
    · rw [hc]
      intro f' hf'
      rcases List.mem_map.mp hf' with ⟨f, hf, rfl⟩
      have hnn := h f hf
      split_ifs <;> simp <;> omega
  · rw [rollback_folders_eq]; exact h

/-! ## Claim C3 (amended): failures leave the whole state untouched -/

/-- C3, amended: whenever `execute_suggestion` on an Approved suggestion
returns an unsuccessful result along the checked failure paths
(collision, missing source file, backup failure, rename failure), the
entire state — store and filesystem — is exactly the state from before
the attempt; in particular the suggestion is still Approved rather than
Failed. -/
theorem execute_failure_leaves_state_unchanged (st : SysState) (sid : Nat) (b : Bool)
    (s : RenameSuggestion)
    (h1 : findSuggestion st.db sid = some s)
    (h2 : s.status = SuggestionStatus.approved)
    (hfail : (execute_suggestion st sid b).2.success = false) :
    (execute_suggestion st sid b).1 = st ∧
    findSuggestion (execute_suggestion st sid b).1.db sid = some s := by
  have key : (execute_suggestion st sid b).1 = st := by
    cases ha : s.asset_id with
    | none =>
      have heq : execute_suggestion st sid b =
          (st, ExecOutcome.failure "No asset associated with suggestion") := by
        simp [execute_suggestion, h1, h2, ha]
      rw [heq]
    | some aid =>
      cases him : findImage st.db aid with
      | none =>
        have heq : execute_suggestion st sid b =
            (st, ExecOutcome.failure "Associated asset not found") := by
          simp [execute_suggestion, h1, h2, ha, him]
        rw [heq]
      | some image =>
        have hred := execute_reduces st sid b s aid image h1 h2 ha him
        rcases executeWithImage_fail_or_ok st s image b with ⟨e, heq⟩ | hok
        · rw [hred, heq]
        · rw [hred] at hfail
          simp [hok] at hfail
  exact ⟨key, by rw [key]; exact h1⟩

/-- Witness for the amended C3 at the concrete collision fixture: the
execution fails and the state is returned unchanged. -/
theorem execute_failure_leaves_state_unchanged_witness :
    (execute_suggestion stC3 10 true).1 = stC3 ∧
    findSuggestion (execute_suggestion stC3 10 true).1.db 10 = some sgC3 :=
  execute_failure_leaves_state_unchanged stC3 10 true sgC3 (by decide) (by decide) (by decide)

/-! ## Claim C6: the executor never overwrites an existing destination -/

/-- C6: with the suggestion Approved and its asset resolved, if the
extension-corrected destination exists as a distinct file then
`execute_suggestion` fails with the collision error and the entire state
is unchanged; and whenever execution succeeds, the destination either
did not exist beforehand or is the source path itself (a rename to the
same name), so an existing distinct file is never overwritten. -/
theorem execute_never_overwrites (st : SysState) (sid : Nat) (b : Bool)
    (s : RenameSuggestion) (aid : Nat) (image : Image)
    (h1 : findSuggestion st.db sid = some s)
    (h2 : s.status = SuggestionStatus.approved)
    (h3 : s.asset_id = some aid)
    (h4 : findImage st.db aid = some image) :
    (((st.fs ⟨image.file_path.dir, correctedName s.suggested_filename image.file_path⟩).isSome = true ∧
        (⟨image.file_path.dir, correctedName s.suggested_filename image.file_path⟩ : FsPath) ≠
          image.file_path) →
      execute_suggestion st sid b =
        (st, ExecOutcome.failure
          ("Target file already exists: " ++ correctedName s.suggested_filename image.file_path))) ∧
    ((execute_suggestion st sid b).2.success = true →
      st.fs ⟨image.file_path.dir, correctedName s.suggested_filename image.file_path⟩ = none ∨
        (⟨image.file_path.dir, correctedName s.suggested_filename image.file_path⟩ : FsPath) =
          image.file_path) := by
  have hstep : ∀ hcond : ((st.fs ⟨image.file_path.dir,
      correctedName s.suggested_filename image.file_path⟩).isSome &&
      decide ((⟨image.file_path.dir,
        correctedName s.suggested_filename image.file_path⟩ : FsPath) ≠ image.file_path)) = true,
      execute_suggestion st sid b =
        (st, ExecOutcome.failure
          ("Target file already exists: " ++ correctedName s.suggested_filename image.file_path)) := by
    intro hcond
    rw [execute_reduces st sid b s aid image h1 h2 h3 h4]
    exact executeWithImage_collision st s image b hcond
  constructor
  · rintro ⟨hsome, hne⟩
    exact hstep (by rw [hsome, decide_eq_true hne]; rfl)
  · intro hsucc
    by_cases hs : st.fs ⟨image.file_path.dir,
        correctedName s.suggested_filename image.file_path⟩ = none
    · exact Or.inl hs
    · by_cases heq : (⟨image.file_path.dir,
          correctedName s.suggested_filename image.file_path⟩ : FsPath) = image.file_path
      · exact Or.inr heq
      · exfalso
        have hcond := hstep (by
          rw [Option.isSome_iff_ne_none.mpr hs, decide_eq_true heq]
          rfl)
        rw [hcond] at hsucc
        simp [ExecOutcome.success] at hsucc

/-- Witness for C6 at the concrete collision fixture. -/
theorem execute_never_overwrites_witness :
    execute_suggestion stC3 10 true =
      (stC3, ExecOutcome.failure
        ("Target file already exists: " ++ correctedName sgC3.suggested_filename imC3.file_path)) :=
  (execute_never_overwrites stC3 10 true sgC3 1 imC3
      (by decide) (by decide) (by decide) (by decide)).1 ⟨by decide, by decide⟩

/-! ## Rollback after a successful rename -/

/-- Rolling back the Rename activity entry written by a successful
execution, on a state whose components are as the executor left them:
the rollback succeeds, restores the image's filename and path, appends a
new rollback Rename entry after the untouched original entry, and leaves
the suggestion rows alone. -/
lemma rollback_after_rename (st ST1 : SysState) (s : RenameSuggestion) (image : Image)
    (aid c : Nat) (nf : String)
    (himid : image.id = aid)
    (himg : findImage st.db aid = some image)
    (horig_eq : s.original_filename = image.original_filename)
    (hname : image.file_path.name = image.original_filename)
    (horig_ne : image.original_filename ≠ "")
    (hact : ∀ a ∈ st.db.activity, a.id < st.db.nextActivityId)
    (himgs : ST1.db.images = st.db.images.map (fun im => if im.id = image.id then
      { im with current_filename := nf, file_path := ⟨image.file_path.dir, nf⟩ } else im))
    (hsugs : ST1.db.suggestions = st.db.suggestions.map (fun t => if t.id = s.id then
      { t with status := SuggestionStatus.applied } else t))
    (hact1 : ST1.db.activity = st.db.activity ++
      [{ id := st.db.nextActivityId, watched_folder_id := s.watched_folder_id,
         asset_id := some image.id, action_type := ActivityAction.rename,
         original_filename := some s.original_filename, new_filename := some nf,
         status := "success", error_message := none, is_rollback := false }])
    (hnext1 : ST1.db.nextActivityId = st.db.nextActivityId + 1)
    (hfs_new : ST1.fs ⟨image.file_path.dir, nf⟩ = some c)
    (hfs_old : ST1.fs image.file_path =
      if image.file_path = ⟨image.file_path.dir, nf⟩ then some c else none) :
    (rollback_rename ST1 st.db.nextActivityId).2 =
      ExecOutcome.ok s.original_filename (st.db.nextActivityId + 1) ∧
    (findImage (rollback_rename ST1 st.db.nextActivityId).1.db aid).map Image.current_filename =
      some image.original_filename ∧
    (findImage (rollback_rename ST1 st.db.nextActivityId).1.db aid).map Image.file_path =
      some image.file_path ∧
    (rollback_rename ST1 st.db.nextActivityId).1.db.activity = st.db.activity ++
      [{ id := st.db.nextActivityId, watched_folder_id := s.watched_folder_id,
         asset_id := some image.id, action_type := ActivityAction.rename,
         original_filename := some s.original_filename, new_filename := some nf,
         status := "success", error_message := none, is_rollback := false },
       { id := st.db.nextActivityId + 1, watched_folder_id := s.watched_folder_id,
         asset_id := some image.id, action_type := ActivityAction.rename,
         original_filename := some nf, new_filename := some s.original_filename,
         status := "success", error_message := none, is_rollback := true }] ∧
    (rollback_rename ST1 st.db.nextActivityId).1.db.suggestions =
      st.db.suggestions.map (fun t => if t.id = s.id then
        { t with status := SuggestionStatus.applied } else t) := by
  have horig_s_ne : s.original_filename ≠ "" := by rw [horig_eq]; exact horig_ne
  have hTr : pyTruthyStr (some s.original_filename) = true := by
    simp [pyTruthyStr, beq_eq_false_iff_ne.mpr horig_s_ne]
  have hrb_eq_old : (⟨image.file_path.dir, s.original_filename⟩ : FsPath) = image.file_path := by
    rw [horig_eq, ← hname]
  have hfind_act : findActivity ST1.db st.db.nextActivityId =
      some { id := st.db.nextActivityId, watched_folder_id := s.watched_folder_id,
             asset_id := some image.id, action_type := ActivityAction.rename,
             original_filename := some s.original_filename, new_filename := some nf,
             status := "success", error_message := none, is_rollback := false } := by
    show ST1.db.activity.find? _ = _
    rw [hact1, find?_append_of_left_none _ _ _
      (fun a ha => decide_eq_false (Nat.ne_of_lt (hact a ha)))]
    exact List.find?_cons_of_pos _ (decide_eq_true rfl)
  have himg0 : findImage st.db image.id = some image := by rw [himid]; exact himg
  have hpred : ∀ im : Image, (fun im : Image => decide (im.id = image.id))
      ((fun im : Image => if im.id = image.id then
        { im with current_filename := nf, file_path := ⟨image.file_path.dir, nf⟩ } else im) im) =
      decide (im.id = image.id) := by
    intro im
    by_cases h : im.id = image.id <;> simp [h]
  have hfind_img1 : findImage ST1.db image.id =
      some { image with current_filename := nf, file_path := ⟨image.file_path.dir, nf⟩ } := by
    show ST1.db.images.find? _ = _
    rw [himgs, find?_map_of_pred _ _ _ _ hpred]
    rw [show st.db.images.find? (fun im => decide (im.id = image.id)) = some image from himg0]
    simp
  have hcond2 : ¬((ST1.fs ⟨image.file_path.dir, s.original_filename⟩).isSome = true ∧
      ¬ s.original_filename = nf) := by
    rintro ⟨hsome, hne⟩
    rw [hrb_eq_old, hfs_old] at hsome
    by_cases heq : image.file_path = (⟨image.file_path.dir, nf⟩ : FsPath)
    · exact hne (congrArg FsPath.name (hrb_eq_old.trans heq))
    · rw [if_neg heq] at hsome
      simp at hsome
  have hred2 : rollback_rename ST1 st.db.nextActivityId =
      ({ db := { updateImage ST1.db image.id (fun im =>
            { im with current_filename := s.original_filename,
                      file_path := ⟨image.file_path.dir, s.original_filename⟩ }) with
            activity := (updateImage ST1.db image.id (fun im =>
              { im with current_filename := s.original_filename,
                        file_path := ⟨image.file_path.dir, s.original_filename⟩ })).activity ++
              [{ id := ST1.db.nextActivityId, watched_folder_id := s.watched_folder_id,
                 asset_id := some image.id, action_type := ActivityAction.rename,
                 original_filename := some nf, new_filename := some s.original_filename,
                 status := "success", error_message := none, is_rollback := true }],
            nextActivityId := ST1.db.nextActivityId + 1 },
          fs := fsWrite (fsErase ST1.fs ⟨image.file_path.dir, nf⟩)
            ⟨image.file_path.dir, s.original_filename⟩ c },
        ExecOutcome.ok s.original_filename ST1.db.nextActivityId) := by
    simp [rollback_rename, hfind_act, hfind_img1, hTr, hcond2, hfs_new, updateImage]
  have hpred2 : ∀ g : Image → Image, (∀ a : Image, (g a).id = a.id) →
      ∀ im : Image, (fun im : Image => decide (im.id = aid)) (g im) = decide (im.id = aid) := by
    intro g hg im
    show decide ((g im).id = aid) = decide (im.id = aid)
    rw [hg im]
  have hfind2 : findImage (rollback_rename ST1 st.db.nextActivityId).1.db aid =
      some { image with current_filename := s.original_filename,
                        file_path := ⟨image.file_path.dir, s.original_filename⟩ } := by
    rw [hred2]
    show ((updateImage ST1.db image.id _).images).find? _ = _
    simp only [updateImage]
    rw [himgs, find?_map_of_pred _ _ _ _ (hpred2 _ (fun a => by
        by_cases h : a.id = image.id <;> simp [h])),
      find?_map_of_pred _ _ _ _ (hpred2 _ (fun a => by
        by_cases h : a.id = image.id <;> simp [h]))]
    rw [show st.db.images.find? (fun im => decide (im.id = aid)) = some image from himg]
    simp [himid]
  refine ⟨?_, ?_, ?_, ?_, ?_⟩
  · rw [hred2, hnext1]
  · rw [hfind2]
    simp [horig_eq]
  · rw [hfind2]
    simp [hrb_eq_old]
  · rw [hred2]
    show (updateImage ST1.db image.id _).activity ++ _ = _
    simp only [updateImage]
    rw [hact1, hnext1, List.append_assoc]
    rfl
  · rw [hred2]
    simp only [updateImage]
    exact hsugs

/-! ## Claim C7: rollback is the exact inverse of a successful rename -/

/-- C7: executing an Approved suggestion whose source file exists and
whose destination is free, then rolling back the Rename activity entry
it wrote, restores the asset exactly: `current_filename` equals
`original_filename` again and the file path is back at its old value;
the activity log ends with the original successful Rename entry,
unmodified, followed by one new successful Rename entry flagged as the
rollback; and the suggestion's Applied status is never mutated by the
rollback.  (Hypotheses: the rows are as generation built them — the
suggestion carries the image's original filename, the file's name is
that filename and is nonempty — the corrected destination avoids the
sibling backup name, and activity ids are fresh.) -/
theorem rollback_exact_inverse (st : SysState) (sid : Nat) (b : Bool)
    (s : RenameSuggestion) (aid : Nat) (image : Image) (c : Nat)
    (h1 : findSuggestion st.db sid = some s)
    (h2 : s.status = SuggestionStatus.approved)
    (h3 : s.asset_id = some aid)
    (h4 : findImage st.db aid = some image)
    (hsrc : st.fs image.file_path = some c)
    (hnocol : ¬ ((st.fs ⟨image.file_path.dir,
        correctedName s.suggested_filename image.file_path⟩).isSome &&
      decide ((⟨image.file_path.dir,
        correctedName s.suggested_filename image.file_path⟩ : FsPath) ≠
          image.file_path)) = true)
    (horig_eq : s.original_filename = image.original_filename)
    (hname : image.file_path.name = image.original_filename)
    (horig_ne : image.original_filename ≠ "")
    (hnb : correctedName s.suggested_filename image.file_path ≠
      image.file_path.name ++ ".backup")
    (hact : ∀ a ∈ st.db.activity, a.id < st.db.nextActivityId) :
    (execute_suggestion st sid b).2 =
      ExecOutcome.ok (correctedName s.suggested_filename image.file_path)
        st.db.nextActivityId ∧
    (rollback_rename (execute_suggestion st sid b).1 st.db.nextActivityId).2 =
      ExecOutcome.ok s.original_filename (st.db.nextActivityId + 1) ∧
    (findImage (rollback_rename (execute_suggestion st sid b).1
        st.db.nextActivityId).1.db aid).map Image.current_filename =
      some image.original_filename ∧
    (findImage (rollback_rename (execute_suggestion st sid b).1
        st.db.nextActivityId).1.db aid).map Image.file_path =
      some image.file_path ∧
    (rollback_rename (execute_suggestion st sid b).1 st.db.nextActivityId).1.db.activity =
      st.db.activity ++
        [{ id := st.db.nextActivityId, watched_folder_id := s.watched_folder_id,
           asset_id := some image.id, action_type := ActivityAction.rename,
           original_filename := some s.original_filename,
           new_filename := some (correctedName s.suggested_filename image.file_path),
           status := "success", error_message := none, is_rollback := false },
         { id := st.db.nextActivityId + 1, watched_folder_id := s.watched_folder_id,
           asset_id := some image.id, action_type := ActivityAction.rename,
           original_filename := some (correctedName s.suggested_filename image.file_path),
           new_filename := some s.original_filename,
           status := "success", error_message := none, is_rollback := true }] ∧
    (findSuggestion (rollback_rename (execute_suggestion st sid b).1
        st.db.nextActivityId).1.db sid).map RenameSuggestion.status =
      some SuggestionStatus.applied := by
  have hred := execute_reduces st sid b s aid image h1 h2 h3 h4
  have hsplit : ∃ fs1 bm, (execute_suggestion st sid b = executeRenamePhase st fs1 bm s image
      image.file_path
      ⟨image.file_path.dir, correctedName s.suggested_filename image.file_path⟩
      (correctedName s.suggested_filename image.file_path)
      ⟨image.file_path.dir, image.file_path.name ++ ".backup"⟩) ∧
      fs1 image.file_path = some c := by
    rw [hred]
    cases b with
    | true =>
      refine ⟨fsWrite st.fs ⟨image.file_path.dir, image.file_path.name ++ ".backup"⟩ c,
        true, ?_, ?_⟩
      · simp only [executeWithImage]
        rw [if_neg hnocol]
        simp [hsrc]
      · simp only [fsWrite]
        rw [if_neg (fun h => backup_path_ne image.file_path h.symm)]
        exact hsrc
    | false =>
      refine ⟨st.fs, false, ?_, hsrc⟩
      simp only [executeWithImage]
      rw [if_neg hnocol]
      simp
  obtain ⟨fs1, bm, hwim, hfs1⟩ := hsplit
  obtain ⟨hout, himgs, hsugs, hact1, hnext1, hfs3⟩ :=
    executeRenamePhase_ok st fs1 bm s image image.file_path
      ⟨image.file_path.dir, correctedName s.suggested_filename image.file_path⟩
      (correctedName s.suggested_filename image.file_path)
      ⟨image.file_path.dir, image.file_path.name ++ ".backup"⟩ c hfs1
  have hbpne : (⟨image.file_path.dir, image.file_path.name ++ ".backup"⟩ : FsPath) ≠
      image.file_path := backup_path_ne image.file_path
  have hnewbp : (⟨image.file_path.dir,
      correctedName s.suggested_filename image.file_path⟩ : FsPath) ≠
      ⟨image.file_path.dir, image.file_path.name ++ ".backup"⟩ :=
    fspath_ne_of_name_ne hnb
  have hfs_new : (executeRenamePhase st fs1 bm s image image.file_path
      ⟨image.file_path.dir, correctedName s.suggested_filename image.file_path⟩
      (correctedName s.suggested_filename image.file_path)
      ⟨image.file_path.dir, image.file_path.name ++ ".backup"⟩).1.fs
      ⟨image.file_path.dir, correctedName s.suggested_filename image.file_path⟩ = some c := by
    rw [hfs3]
    split
    · simp [fsErase, fsWrite, hnewbp]
    · simp [fsWrite]
  have hfs_old : (executeRenamePhase st fs1 bm s image image.file_path
      ⟨image.file_path.dir, correctedName s.suggested_filename image.file_path⟩
      (correctedName s.suggested_filename image.file_path)
      ⟨image.file_path.dir, image.file_path.name ++ ".backup"⟩).1.fs image.file_path =
      (if image.file_path = (⟨image.file_path.dir,
        correctedName s.suggested_filename image.file_path⟩ : FsPath) then some c else none) := by
    rw [hfs3]
    split
    · simp [fsErase, fsWrite, Ne.symm hbpne]
    · simp [fsErase, fsWrite]
  have h4f : st.db.images.find? (fun im => decide (im.id = aid)) = some image := h4
  have himid : image.id = aid := by
    have hp := List.find?_some h4f
    simpa using hp
  obtain ⟨hr2, hfi_cur, hfi_path, hract, hrsug⟩ :=
    rollback_after_rename st (execute_suggestion st sid b).1 s image aid c
      (correctedName s.suggested_filename image.file_path)
      himid h4 horig_eq hname horig_ne hact
      (by rw [hwim]; exact himgs) (by rw [hwim]; exact hsugs)
      (by rw [hwim]; exact hact1) (by rw [hwim]; exact hnext1)
      (by rw [hwim]; exact hfs_new) (by rw [hwim]; exact hfs_old)
  have h1f : st.db.suggestions.find? (fun t => decide (t.id = sid)) = some s := h1
  have hsid : s.id = sid := by
    have hp := List.find?_some h1f
    simpa using hp
  have hfind_sug : findSuggestion (rollback_rename (execute_suggestion st sid b).1
      st.db.nextActivityId).1.db sid = some { s with status := SuggestionStatus.applied } := by
    show (rollback_rename (execute_suggestion st sid b).1
      st.db.nextActivityId).1.db.suggestions.find? _ = _
    rw [hrsug, find?_map_of_pred _ _ _ (fun t => decide (t.id = sid))
      (fun a => by by_cases hc : a.id = s.id <;> simp [hc])]
    rw [show st.db.suggestions.find? (fun t => decide (t.id = sid)) = some s from h1]
    simp [hsid]
  refine ⟨by rw [hwim]; exact hout, hr2, hfi_cur, hfi_path, hract, ?_⟩
  rw [hfind_sug]
  rfl

/-- Witness for C7: executing the Approved fixture suggestion `sgE`
(renaming `IMG_0001.jpg` to `sunset.jpg`) and rolling back the activity
entry it wrote restores the original filename and path, appends the two
Rename entries, and leaves the suggestion Applied. -/
theorem rollback_exact_inverse_witness :
    (execute_suggestion stE 10 true).2 =
      ExecOutcome.ok (correctedName sgE.suggested_filename imE.file_path)
        stE.db.nextActivityId ∧
    (rollback_rename (execute_suggestion stE 10 true).1 stE.db.nextActivityId).2 =
      ExecOutcome.ok sgE.original_filename (stE.db.nextActivityId + 1) ∧
    (findImage (rollback_rename (execute_suggestion stE 10 true).1
        stE.db.nextActivityId).1.db 1).map Image.current_filename =
      some imE.original_filename ∧
    (findImage (rollback_rename (execute_suggestion stE 10 true).1
        stE.db.nextActivityId).1.db 1).map Image.file_path =
      some imE.file_path ∧
    (rollback_rename (execute_suggestion stE 10 true).1 stE.db.nextActivityId).1.db.activity =
      stE.db.activity ++
        [{ id := stE.db.nextActivityId, watched_folder_id := sgE.watched_folder_id,
           asset_id := some imE.id, action_type := ActivityAction.rename,
           original_filename := some sgE.original_filename,
           new_filename := some (correctedName sgE.suggested_filename imE.file_path),
           status := "success", error_message := none, is_rollback := false },
         { id := stE.db.nextActivityId + 1, watched_folder_id := sgE.watched_folder_id,
           asset_id := some imE.id, action_type := ActivityAction.rename,
           original_filename := some (correctedName sgE.suggested_filename imE.file_path),
           new_filename := some sgE.original_filename,
           status := "success", error_message := none, is_rollback := true }] ∧
    (findSuggestion (rollback_rename (execute_suggestion stE 10 true).1
        stE.db.nextActivityId).1.db 10).map RenameSuggestion.status =
      some SuggestionStatus.applied :=
  rollback_exact_inverse stE 10 true sgE 1 imE 7
    (by decide) (by decide) (by decide) (by decide) (by decide) (by decide)
    (by decide) (by decide) (by decide) (by decide) (by decide)

/-! ## Claim C2 (amended): how `pending_count` is actually maintained -/

/-- C2, amended: `pending_count` is adjusted only at suggestion
generation (incremented by one exactly when a Pending suggestion is
created) and at successful execution (decremented when strictly
positive); approve and reject leave every folder's `pending_count`
unchanged even though they change which rows are Pending, so the field
is not reconciled with the live Pending count at those operations. -/
theorem pending_count_reconciliation
    (db : Db) (sid sid2 : Nat)
    (st : SysState) (sid3 : Nat) (b : Bool) (s : RenameSuggestion)
    (st2 : SysState) (fid : Nat) (p : FsPath) (ai : Option AiAnalysis) (en : String) (θ : ℚ)
    (hs : findSuggestion st.db sid3 = some s)
    (hok : (execute_suggestion st sid3 b).2.success = true)
    (hdup : findImageByPath st2.db p = none)
    (hproc : (process_file st2 fid p ai en θ).2.success = true) :
    ((approve_suggestion db sid).1).folders.map WatchedFolder.pending_count =
      db.folders.map WatchedFolder.pending_count ∧
    ((reject_suggestion db sid2).1).folders.map WatchedFolder.pending_count =
      db.folders.map WatchedFolder.pending_count ∧
    ((execute_suggestion st sid3 b).1).db.folders =
      st.db.folders.map (fun f => if s.watched_folder_id = some f.id then
        (if 0 < f.pending_count then { f with pending_count := f.pending_count - 1 } else f)
        else f) ∧
    ((process_file st2 fid p ai en θ).1).db.folders =
      st2.db.folders.map (fun f => if f.id = fid then
        { f with analyzed_count := f.analyzed_count + 1,
                 pending_count :=
                   if (process_file st2 fid p ai en θ).2.suggestion_created then
                     f.pending_count + 1
                   else f.pending_count }
        else f) := by
  refine ⟨?_, ?_, ?_, ?_⟩
  · rw [approve_folders_eq]
  · rw [reject_folders_eq]
  · obtain ⟨hst, aid, image, ha, him, hred⟩ := execute_success_inversion st sid3 b s hs hok
    rw [hred] at hok ⊢
    exact executeWithImage_success_folders st s image b hok
  · exact process_file_success_folders st2 fid p ai en θ hdup hproc

/-- Witness for the amended C2 at concrete inputs: an approve, a
successful execution, and a fresh import. -/
theorem pending_count_reconciliation_witness :
    ((approve_suggestion dbC2 10).1).folders.map WatchedFolder.pending_count =
      dbC2.folders.map WatchedFolder.pending_count ∧
    ((reject_suggestion dbC2 10).1).folders.map WatchedFolder.pending_count =
      dbC2.folders.map WatchedFolder.pending_count ∧
    ((execute_suggestion stE 10 true).1).db.folders =
      stE.db.folders.map (fun f => if sgE.watched_folder_id = some f.id then
        (if 0 < f.pending_count then { f with pending_count := f.pending_count - 1 } else f)
        else f) ∧
    ((process_file stC1 1 srcC1 none "n" 1).1).db.folders =
      stC1.db.folders.map (fun f => if f.id = 1 then
        { f with analyzed_count := f.analyzed_count + 1,
                 pending_count :=
                   if (process_file stC1 1 srcC1 none "n" 1).2.suggestion_created then
                     f.pending_count + 1
                   else f.pending_count }
        else f) :=
  pending_count_reconciliation dbC2 10 10 stE 10 true sgE stC1 1 srcC1 none "n" 1
    (by decide) (by decide) (by decide) (by decide)

/-- Witness for C10 at the concrete collision fixture. -/
theorem pending_count_nonnegative_witness :
    (∀ f ∈ ((process_file stC3 1 ⟨"/w", "c.jpg"⟩ none "n" 1).1).db.folders,
      0 ≤ f.pending_count) ∧
    (∀ f ∈ ((approve_suggestion stC3.db 10).1).folders, 0 ≤ f.pending_count) ∧
    (∀ f ∈ ((reject_suggestion stC3.db 10).1).folders, 0 ≤ f.pending_count) ∧
    (∀ f ∈ ((execute_suggestion stC3 10 true).1).db.folders, 0 ≤ f.pending_count) ∧
    (∀ f ∈ ((rollback_rename stC3 1).1).db.folders, 0 ≤ f.pending_count) :=
  pending_count_nonnegative stC3 1 10 10 10 1 ⟨"/w", "c.jpg"⟩ none "n" 1 true (by decide)

end Nodeo
